import Mathlib

/-!
Shallow embedding of the Unmanic plugin `extract_srt_subtitles_with_iso`
(`plugin.py`): the stream filter (`test_stream_needs_processing`), the
subtitle tag resolver (`custom_stream_mapping`) and the ffmpeg argument
builder (`get_ffmpeg_args`).

Python's fallible operations are embedded in `Except PyErr`:
`None.lower()` raises `AttributeError`; reading a local variable that was
never assigned raises `UnboundLocalError`; accessing a babelfish code the
language does not have raises `LanguageConvertError`; `get_ffmpeg_args`
raises a plain `Exception` when no input file is set.
-/

namespace ExtractSrt

/-- Exceptions the embedded code can raise. -/
inductive PyErr where
  /-- `AttributeError`: method call on `None` (absent dict key). -/
  | attributeError
  /-- `UnboundLocalError`: a local variable read before any assignment. -/
  | unboundLocalError
  /-- babelfish `LanguageConvertError`: the language has no such code. -/
  | languageConvertError
  /-- `Exception("Input file has not been set")` in `get_ffmpeg_args`. -/
  | exceptionInputFileNotSet
deriving DecidableEq, Repr

/-- A babelfish `Language` value: ISO-639 identity with its alternate codes.
`alpha3` (terminological) is the primary key and always present; `alpha2`,
`alpha3b` (bibliographic) and `opensubtitles` exist only for some languages
and accessing an absent one raises `LanguageConvertError`. -/
structure Language where
  alpha3 : String
  alpha2 : Option String
  alpha3b : Option String
  opensubtitles : Option String
deriving DecidableEq, Repr

/-- The babelfish lookup interface used by the plugin: four partial
constructors, each raising (modelled as `none`) when the code is unknown. -/
structure Babelfish where
  fromalpha2 : String → Option Language
  fromalpha3b : String → Option Language
  fromalpha3t : String → Option Language
  fromopensubtitles : String → Option Language

/-- `stream_info.get('tags', {})`: the optional `language` / `title` keys. -/
structure StreamTags where
  language : Option String
  title : Option String
deriving DecidableEq, Repr

/-- Per-stream probe data read by the plugin: the tag map, the container
stream `index`, and `codec_name`. -/
structure StreamInfo where
  tags : StreamTags
  index : Nat
  codec_name : Option String
deriving DecidableEq, Repr

/-- The plugin settings read via `self.settings.get_setting(...)`
(`Settings.settings` dictionary in `plugin.py`). -/
structure Settings where
  language_code : String
  use_sdh_extension : String
  use_forced_extension : String
  default_language : String
  use_title_failback : Bool
  use_regional : Bool
  latin_spanish : String
deriving DecidableEq, Repr

/-- The per-stream record appended to `self.sub_streams`, together with the
`stream_encoding` part of the returned mapping dictionary. -/
structure SubStream where
  stream_id : Nat
  subtitle_tag : String
  stream_mapping : List String
  stream_encoding : List String
deriving DecidableEq, Repr

/-- Python truthiness of an optional string: `None` and `''` are falsy. -/
def pyTruthy (o : Option String) : Bool := o.getD "" != ""

/-- Python `str.lower()` restricted to the ASCII range the keyword
comparisons use. -/
def pyLower (s : String) : String := ⟨s.data.map Char.toLower⟩

/-- Character-list prefix test (Python substring search helper). -/
def charsPrefix : List Char → List Char → Bool
  | [], _ => true
  | _ :: _, [] => false
  | a :: as, b :: bs => a == b && charsPrefix as bs

/-- Character-list contiguous substring test. -/
def charsSub (needle : List Char) : List Char → Bool
  | [] => charsPrefix needle []
  | b :: bs => charsPrefix needle (b :: bs) || charsSub needle bs

/-- Python `needle in haystack` for strings: contiguous substring test. -/
def pyIn (needle haystack : String) : Bool :=
  charsSub needle.data haystack.data

/-- The character class of Python's `re` pattern `\s` on `str` inputs. -/
def isPyWhitespace (c : Char) : Bool :=
  c = ' ' || c = '\t' || c = '\n' || c = '\r' ||
  c.toNat = 11 || c.toNat = 12 ||
  (28 ≤ c.toNat && c.toNat ≤ 31) ||
  c.toNat = 0x85 || c.toNat = 0xa0 || c.toNat = 0x1680 ||
  (0x2000 ≤ c.toNat && c.toNat ≤ 0x200a) ||
  c.toNat = 0x2028 || c.toNat = 0x2029 ||
  c.toNat = 0x202f || c.toNat = 0x205f || c.toNat = 0x3000

/-- One character step of `re.sub('\s', '-', ...)`. -/
def subWsChar (c : Char) : Char := if isPyWhitespace c then '-' else c

/-- `re.sub('\s', '-', s)`: every whitespace character becomes a hyphen. -/
def re_sub_ws (s : String) : String := ⟨s.data.map subWsChar⟩

/-- `test_stream_needs_processing` (plugin.py lines 142-146):
`stream_info.get('codec_name').lower() in ['srt', 'subrip', 'mov_text']`.
An absent `codec_name` makes `.lower()` an attribute access on `None`. -/
def test_stream_needs_processing (stream_info : StreamInfo) : Except PyErr Bool :=
  match stream_info.codec_name with
  | none => .error .attributeError
  | some c => .ok (["srt", "subrip", "mov_text"].contains (pyLower c))

/-- babelfish `Language.__str__`: the alpha2 code when the language has
one, else the alpha3 code (country/script are absent for languages coming
from the plain code lookups the plugin performs). -/
def lang_str (l : Language) : String := l.alpha2.getD l.alpha3

/-- babelfish `Language.__eq__` against a plain string: `str(self) == other`. -/
def lang_eq_str (l : Language) (s : String) : Bool := lang_str l == s

/-- Locale resolution, plugin.py lines 177-194: a 2-character language
string gets exactly an alpha-2 lookup; a 3-character one gets alpha3b,
then alpha3t, then OpenSubtitles, first success winning; any other length
resolves to nothing.  Each `except` arm is the `none` branch. -/
def resolve_locale (bf : Babelfish) (stream_lang : String) : Option Language :=
  if stream_lang.length = 2 then
    bf.fromalpha2 stream_lang
  else if stream_lang.length = 3 then
    match bf.fromalpha3b stream_lang with
    | some l => some l
    | none =>
      match bf.fromalpha3t stream_lang with
      | some l => some l
      | none => bf.fromopensubtitles stream_lang
  else
    none

/-- Language-tag format selection, plugin.py lines 196-211.  Accessing
`language.alpha2` / `.alpha3b` / `.opensubtitles` raises
`LanguageConvertError` when the language lacks that code; an unrecognized
`language_code` setting leaves the tag `''` (the if/elif chain has no
final else). -/
def select_language_tag (language_code : String) (language : Language) :
    Except PyErr String :=
  if language_code = "1" then
    match language.alpha2 with
    | some a => .ok a
    | none => .error .languageConvertError
  else if language_code = "2" then
    match language.alpha3b with
    | some a => .ok a
    | none => .error .languageConvertError
  else if language_code = "3" then
    .ok language.alpha3
  else if language_code = "4" then
    match language.opensubtitles with
    | some a => .ok a
    | none => .error .languageConvertError
  else
    .ok ""

/-- English regional keyword detection, plugin.py lines 214-224.  `none`
means no branch assigned `region_tag`. -/
def detect_region_en (stream_title : String) : Option String :=
  if (pyIn "united" stream_title && pyIn "states" stream_title) ||
      pyIn "usa" stream_title || pyIn "america" stream_title then
    some "US"
  else if (pyIn "united" stream_title && pyIn "kingdom" stream_title) ||
      (pyIn "great" stream_title && pyIn "britain" stream_title) ||
      pyIn "uk" stream_title then
    some "GB"
  else if pyIn "australia" stream_title then some "AU"
  else if pyIn "canad" stream_title then some "CA"
  else if pyIn "zealand" stream_title then some "NZ"
  else none

/-- French regional keyword detection, plugin.py lines 226-230. -/
def detect_region_fr (stream_title : String) : Option String :=
  if pyIn "canad" stream_title || pyIn "quebec" stream_title ||
      pyIn "québéc" stream_title then
    some "CA"
  else if pyIn "belgi" stream_title then some "BE"
  else none

/-- Portuguese regional keyword detection, plugin.py lines 232-234. -/
def detect_region_pt (stream_title : String) : Option String :=
  if pyIn "brazil" stream_title || pyIn "brasil" stream_title then some "BR"
  else none

/-- Regional detection, plugin.py lines 213-243: returns the (possibly
overridden) `language_tag` and `region_tag`, the latter as `Option` where
`none` means the local variable was never assigned. -/
def regional_detection (settings : Settings) (language : Language)
    (stream_title language_tag : String) : String × Option String :=
  if settings.use_regional then
    if lang_eq_str language "en" then
      (language_tag, detect_region_en stream_title)
    else if lang_eq_str language "fr" then
      (language_tag, detect_region_fr stream_title)
    else if lang_eq_str language "pt" then
      (language_tag, detect_region_pt stream_title)
    else if lang_eq_str language "es" then
      let region_tag :=
        if pyIn "mexic" stream_title || pyIn "méxic" stream_title then
          some "MX"
        else none
      if pyIn "latin" stream_title || pyIn "america" stream_title then
        if settings.latin_spanish = "1" then ("ea", region_tag)
        else if settings.latin_spanish = "2" then (language_tag, some "419")
        else (language_tag, region_tag)
      else (language_tag, region_tag)
    else (language_tag, none)
  else (language_tag, none)

/-- Tag assembly, plugin.py lines 258-270.  Reading `region_tag` (line
260) when no branch ever assigned it raises `UnboundLocalError`; this read
happens exactly when `language_tag` is non-empty.  In the else branch the
original-case title (`stream_tags.get('title')`) is appended. -/
def assemble_tag (language_tag : String) (region_tag : Option String)
    (sdh_tag forced_tag : String) (use_title_failback : Bool)
    (stream_title raw_title : String) : Except PyErr String :=
  if language_tag ≠ "" then
    match region_tag with
    | none => .error .unboundLocalError
    | some rt =>
      let subtitle_tag := "" ++ "." ++ language_tag
      let subtitle_tag := if rt ≠ "" then subtitle_tag ++ "." ++ rt else subtitle_tag
      let subtitle_tag := if sdh_tag ≠ "" then subtitle_tag ++ "." ++ sdh_tag else subtitle_tag
      let subtitle_tag := if forced_tag ≠ "" then subtitle_tag ++ "." ++ forced_tag else subtitle_tag
      .ok subtitle_tag
  else
    .ok (if use_title_failback ∧ stream_title ≠ "" then "" ++ "." ++ raw_title else "")

/-- plugin.py lines 177-245: from language string to the pair
`(language_tag, region_tag)`, where `region_tag = none` records that the
local variable was never assigned. -/
def language_branch (bf : Babelfish) (settings : Settings)
    (stream_lang stream_title : String) : Except PyErr (String × Option String) :=
  match resolve_locale bf stream_lang with
  | some lang =>
    match select_language_tag settings.language_code lang with
    | .error e => .error e
    | .ok language_tag =>
      .ok (regional_detection settings lang stream_title language_tag)
  | none =>
    if stream_lang ≠ "" then .ok (stream_lang, none) else .ok ("", none)

/-- plugin.py lines 177-270: everything up to (and including) the tag
assembly, before the index fallback and the whitespace sanitization. -/
def mapping_pre_tag (bf : Babelfish) (settings : Settings)
    (stream_tags : StreamTags) (stream_lang stream_title : String) :
    Except PyErr String :=
  match language_branch bf settings stream_lang stream_title with
  | .error e => .error e
  | .ok (language_tag, region_tag) =>
    let sdh_tag :=
      if settings.use_sdh_extension ≠ "" ∧
          (pyIn "sdh" stream_title || pyIn "cc" stream_title || pyIn "hi" stream_title) then
        settings.use_sdh_extension
      else ""
    let forced_tag :=
      if settings.use_forced_extension ≠ "" ∧ pyIn "force" stream_title then
        settings.use_forced_extension
      else ""
    assemble_tag language_tag region_tag sdh_tag forced_tag
      settings.use_title_failback stream_title (stream_tags.title.getD "")

/-- plugin.py lines 272-277: the index fallback for an empty tag, then
`re.sub('\s', '-', subtitle_tag)`. -/
def finalize_tag (subtitle_tag : String) (index : Nat) : String :=
  let subtitle_tag :=
    if subtitle_tag = "" then subtitle_tag ++ "." ++ toString index
    else subtitle_tag
  re_sub_ws subtitle_tag

/-- plugin.py lines 177-277: from the (possibly default-substituted)
lower-cased language and lower-cased title to the final sanitized tag. -/
def mapping_core (bf : Babelfish) (settings : Settings)
    (stream_tags : StreamTags) (stream_lang stream_title : String)
    (index : Nat) : Except PyErr String :=
  match mapping_pre_tag bf settings stream_tags stream_lang stream_title with
  | .error e => .error e
  | .ok subtitle_tag => .ok (finalize_tag subtitle_tag index)

/-- `custom_stream_mapping` (plugin.py lines 148-291): tag inputs are
lower-cased when truthy; `'und'` or empty language is replaced by the
`default_language` setting; the resulting record is the `sub_streams`
entry together with the returned `stream_encoding`. -/
def custom_stream_mapping (bf : Babelfish) (settings : Settings)
    (stream_info : StreamInfo) (stream_id : Nat) : Except PyErr SubStream :=
  let stream_tags := stream_info.tags
  let stream_lang :=
    if pyTruthy stream_tags.language then pyLower (stream_tags.language.getD "")
    else ""
  let stream_title :=
    if pyTruthy stream_tags.title then pyLower (stream_tags.title.getD "")
    else ""
  let stream_lang :=
    if stream_lang = "und" ∨ stream_lang = "" then settings.default_language
    else stream_lang
  match mapping_core bf settings stream_tags stream_lang stream_title stream_info.index with
  | .error e => .error e
  | .ok subtitle_tag =>
    .ok { stream_id := stream_id
          subtitle_tag := subtitle_tag
          stream_mapping := ["-map", "0:s:" ++ toString stream_id]
          stream_encoding := ["-c:s:" ++ toString stream_id, "copy"] }

/-- The mutable state of the `StreamMapper` collaborator that
`get_ffmpeg_args` reads (the class itself lives in `lib/ffmpeg`, outside
the plugin file): the three option lists and the optional input file. -/
structure Mapper where
  generic_options : List String
  main_options : List String
  advanced_options : List String
  input_file : Option String
deriving DecidableEq, Repr

/-- `get_ffmpeg_args` (plugin.py lines 293-316): generic options, then
`-i` + input file, then main options, then advanced options; raises when
`self.input_file` is falsy. -/
def get_ffmpeg_args (m : Mapper) : Except PyErr (List String) :=
  let args := m.generic_options
  match m.input_file with
  | none => .error .exceptionInputFileNotSet
  | some f =>
    if f = "" then .error .exceptionInputFileNotSet
    else
      let args := args ++ ["-i", f]
      let args := args ++ m.main_options
      let args := args ++ m.advanced_options
      .ok args

/-- English in the babelfish table. Modelled from the spec: the external
babelfish ISO-639 table is an out-of-repository collaborator; this entry
follows the spec's documented resolution outcomes (`eng` → `en`, alpha3b
`eng`). -/
def english : Language := ⟨"eng", some "en", some "eng", some "eng"⟩

/-- Spanish in the babelfish table. Modelled from the spec: `spa` resolves
with alpha-2 form `es`. -/
def spanish : Language := ⟨"spa", some "es", some "spa", some "spa"⟩

/-- French in the babelfish table. Modelled from the spec: alpha-2 `fr`,
bibliographic `fre`, terminological `fra`. -/
def french : Language := ⟨"fra", some "fr", some "fre", some "fre"⟩

/-- Portuguese in the babelfish table. Modelled from the spec: alpha-2
`pt`, alpha-3 `por`. -/
def portuguese : Language := ⟨"por", some "pt", some "por", some "por"⟩

/-- Modelled from the spec: the fragment of the external babelfish ISO-639
lookup table covering the languages exercised by the spec's test
properties. -/
def bfTable : Babelfish where
  fromalpha2 s :=
    if s = "en" then some english
    else if s = "es" then some spanish
    else if s = "fr" then some french
    else if s = "pt" then some portuguese
    else none
  fromalpha3b s :=
    if s = "eng" then some english
    else if s = "spa" then some spanish
    else if s = "fre" then some french
    else if s = "por" then some portuguese
    else none
  fromalpha3t s :=
    if s = "eng" then some english
    else if s = "spa" then some spanish
    else if s = "fra" then some french
    else if s = "por" then some portuguese
    else none
  fromopensubtitles s :=
    if s = "eng" then some english
    else if s = "spa" then some spanish
    else if s = "fre" then some french
    else if s = "por" then some portuguese
    else none

/-- The default values of the `Settings.settings` dictionary
(plugin.py lines 37-45). -/
def defaultSettings : Settings :=
  { language_code := "1"
    use_sdh_extension := ""
    use_forced_extension := ""
    default_language := "en"
    use_title_failback := true
    use_regional := true
    latin_spanish := "1" }

/-! ### Helper lemmas -/

theorem data_mk (l : List Char) : (String.mk l).data = l := rfl

theorem string_ne_empty_of_data {s : String} (h : s.data ≠ []) : s ≠ "" :=
  fun hc => h (by rw [hc])

theorem append_dot_ne_empty (x y : String) : x ++ "." ++ y ≠ "" := by
  apply string_ne_empty_of_data
  simp [String.data_append]

theorem empty_append : ∀ (s : String), "" ++ s = s
  | ⟨_⟩ => rfl

theorem dot_append_ne_empty (y : String) : "." ++ y ≠ "" := by
  apply string_ne_empty_of_data
  rw [String.data_append, show ("." : String).data = ['.'] from rfl]
  simp

theorem re_sub_ws_data (s : String) : (re_sub_ws s).data = s.data.map subWsChar := rfl

theorem mem_re_sub_ws_not_ws {s : String} {c : Char}
    (h : c ∈ (re_sub_ws s).data) : isPyWhitespace c = false := by
  rw [re_sub_ws_data] at h
  rcases List.mem_map.mp h with ⟨c', _, rfl⟩
  unfold subWsChar
  split
  · decide
  · simp_all

theorem re_sub_ws_ne_empty {s : String} (h : s ≠ "") : re_sub_ws s ≠ "" := by
  apply string_ne_empty_of_data
  rw [re_sub_ws_data]
  simp only [ne_eq, List.map_eq_nil_iff]
  intro hd
  exact h (String.ext hd)

theorem pyLower_data (s : String) : (pyLower s).data = s.data.map Char.toLower := rfl

theorem pyLower_ne_empty {s : String} (h : s ≠ "") : pyLower s ≠ "" := by
  apply string_ne_empty_of_data
  rw [pyLower_data]
  simp only [ne_eq, List.map_eq_nil_iff]
  intro hd
  exact h (String.ext hd)

/-- Every successful run of `mapping_core` returns the sanitization of a
non-empty pre-tag (the index fallback guarantees non-emptiness). -/
theorem mapping_core_ok_shape {bf : Babelfish} {settings : Settings}
    {tg : StreamTags} {sl stt : String} {idx : Nat} {t : String}
    (h : mapping_core bf settings tg sl stt idx = .ok t) :
    ∃ t₀, t₀ ≠ "" ∧ t = re_sub_ws t₀ := by
  unfold mapping_core at h
  split at h
  · exact Except.noConfusion h
  · rename_i s hs
    rw [Except.ok.injEq] at h
    subst h
    unfold finalize_tag
    refine ⟨if s = "" then s ++ "." ++ toString idx else s, ?_, rfl⟩
    split
    · rename_i hse
      subst hse
      exact append_dot_ne_empty "" (toString idx)
    · assumption

/-! ### Claim theorems -/

/-- C1: the claim that `custom_stream_mapping` never raises is false: with
a resolvable language (`eng`), no title, and the default configuration, no
regional branch ever assigns `region_tag`, and the read `if region_tag:`
raises `UnboundLocalError`. -/
theorem extract_c1_unbound_local :
    custom_stream_mapping bfTable defaultSettings ⟨⟨some "eng", none⟩, 2, none⟩ 0 =
      .error .unboundLocalError := rfl

/-- C2 counterexample: an absent codec name does not yield `false`; the
call `stream_info.get('codec_name').lower()` raises `AttributeError`. -/
theorem extract_c2_counterexample :
    test_stream_needs_processing ⟨⟨none, none⟩, 0, none⟩ = .error .attributeError ∧
      (Except.error .attributeError : Except PyErr Bool) ≠ .ok false :=
  ⟨rfl, fun h => Except.noConfusion h⟩

/-- C2 amended: for every present codec name the filter returns, without
error, `true` exactly when the lower-cased name is `srt`, `subrip` or
`mov_text` (so the empty name yields `false`); an absent codec name
raises `AttributeError` instead of returning `false`. -/
theorem extract_c2_stream_filter (tg : StreamTags) (idx : Nat) (s : String) :
    (test_stream_needs_processing ⟨tg, idx, some s⟩ = .ok true ↔
      pyLower s = "srt" ∨ pyLower s = "subrip" ∨ pyLower s = "mov_text") ∧
    test_stream_needs_processing ⟨tg, idx, some s⟩ ≠ .error .attributeError ∧
    test_stream_needs_processing ⟨tg, idx, none⟩ = .error .attributeError := by
  refine ⟨?_, ?_, rfl⟩
  · simp [test_stream_needs_processing, List.contains, List.elem_iff]
  · simp [test_stream_needs_processing]

/-- C3: locale resolution tries exactly the lookups the claim lists, in
that order, first success winning; any other length, or failure of every
attempted lookup, yields no locale (`none`, not an error). -/
theorem extract_c3_locale_resolution (bf : Babelfish) (s : String) :
    (s.length = 2 → resolve_locale bf s = bf.fromalpha2 s) ∧
    (s.length = 3 →
      ((∀ l, bf.fromalpha3b s = some l → resolve_locale bf s = some l) ∧
       (bf.fromalpha3b s = none →
         ∀ l, bf.fromalpha3t s = some l → resolve_locale bf s = some l) ∧
       (bf.fromalpha3b s = none → bf.fromalpha3t s = none →
         resolve_locale bf s = bf.fromopensubtitles s))) ∧
    (s.length ≠ 2 → s.length ≠ 3 → resolve_locale bf s = none) := by
  refine ⟨fun h2 => ?_, fun h3 => ⟨fun l hb => ?_, fun hb l ht => ?_, fun hb ht => ?_⟩,
    fun h2 h3 => ?_⟩ <;>
    simp_all [resolve_locale]

/-- C3 witness: concrete resolutions through the model table. -/
theorem extract_c3_witness :
    resolve_locale bfTable "en" = bfTable.fromalpha2 "en" ∧
    resolve_locale bfTable "spa" = some spanish ∧
    resolve_locale bfTable "zxwq" = none :=
  ⟨(extract_c3_locale_resolution bfTable "en").1 (by decide),
   ((extract_c3_locale_resolution bfTable "spa").2.1 (by decide)).1 spanish (by decide),
   (extract_c3_locale_resolution bfTable "zxwq").2.2 (by decide) (by decide)⟩

/-- C4: every tag actually produced by `custom_stream_mapping` is
non-empty (the stream-index fallback guarantees it) and contains no
whitespace character — in particular no space or tab. -/
theorem extract_c4_tag_invariant (bf : Babelfish) (settings : Settings)
    (stream_info : StreamInfo) (stream_id : Nat) (r : SubStream)
    (h : custom_stream_mapping bf settings stream_info stream_id = .ok r) :
    r.subtitle_tag ≠ "" ∧ ∀ c ∈ r.subtitle_tag.data, isPyWhitespace c = false := by
  simp only [custom_stream_mapping] at h
  split at h
  · exact Except.noConfusion h
  · rename_i tag htag
    rw [Except.ok.injEq] at h
    subst h
    obtain ⟨t₀, ht₀, hre⟩ := mapping_core_ok_shape htag
    refine ⟨?_, ?_⟩
    · show tag ≠ ""
      rw [hre]
      exact re_sub_ws_ne_empty ht₀
    · show ∀ c ∈ tag.data, isPyWhitespace c = false
      rw [hre]
      exact fun c hc => mem_re_sub_ws_not_ws hc

/-- C4 witness: the spec's own example `language="eng"`,
`title="English (USA)"` produces the tag `.en.US`, which is non-empty and
whitespace-free. -/
theorem extract_c4_witness :
    (".en.US" : String) ≠ "" ∧
    ∀ c ∈ (".en.US" : String).data, isPyWhitespace c = false :=
  extract_c4_tag_invariant bfTable defaultSettings
    ⟨⟨some "eng", some "English (USA)"⟩, 0, some "subrip"⟩ 0
    ⟨0, ".en.US", ["-map", "0:s:0"], ["-c:s:0", "copy"]⟩ rfl

/-- C5 counterexample: a title with two adjacent spaces yields two
hyphens, not the single hyphen the claim predicts. -/
theorem extract_c5_counterexample :
    custom_stream_mapping bfTable { defaultSettings with default_language := "" }
        ⟨⟨none, some "Director  Commentary"⟩, 3, some "subrip"⟩ 0 =
      .ok ⟨0, ".Director--Commentary", ["-map", "0:s:0"], ["-c:s:0", "copy"]⟩ ∧
    (".Director--Commentary" : String) ≠ ".Director-Commentary" :=
  ⟨rfl, by decide⟩

/-- C5 amended: the sanitization step replaces every whitespace character
with exactly one hyphen, so a run of `n` whitespace characters yields `n`
consecutive hyphens. -/
theorem extract_c5_whitespace_per_char (a b : String) (n : Nat) :
    re_sub_ws (a ++ String.mk (List.replicate n ' ') ++ b) =
      re_sub_ws a ++ String.mk (List.replicate n '-') ++ re_sub_ws b := by
  apply String.ext
  simp [re_sub_ws_data, String.data_append, data_mk, List.map_replicate,
    show subWsChar ' ' = '-' from rfl]

/-- C6: the claim's own example — `language="und"`, empty title, default
language `en` — does not produce `.en`: the default is substituted and
resolved, but the empty title assigns no `region_tag`, so the read
`if region_tag:` raises `UnboundLocalError`. -/
theorem extract_c6_default_substitution_crash :
    custom_stream_mapping bfTable defaultSettings
        ⟨⟨some "und", some ""⟩, 2, some "subrip"⟩ 0 =
      .error .unboundLocalError := rfl

/-- C7: in shortCode mode the title `Latin America` does not yield `.ea` —
only `language_tag` is overridden, `region_tag` stays unassigned and the
read raises `UnboundLocalError`; in regionCode mode `region_tag` is
assigned `419` and the mapping succeeds with tag `.es.419`. -/
theorem extract_c7_latin_spanish :
    (custom_stream_mapping bfTable defaultSettings
        ⟨⟨some "spa", some "Latin America"⟩, 1, some "subrip"⟩ 1 =
      .error .unboundLocalError) ∧
    (custom_stream_mapping bfTable { defaultSettings with latin_spanish := "2" }
        ⟨⟨some "spa", some "Latin America"⟩, 1, some "subrip"⟩ 1 =
      .ok ⟨1, ".es.419", ["-map", "0:s:1"], ["-c:s:1", "copy"]⟩) :=
  ⟨rfl, rfl⟩

/-- C10: `get_ffmpeg_args` raises exactly when the input file is unset
(falsy); otherwise it returns generic options, `-i` + input file, main
options, then advanced options. -/
theorem extract_c10_ffmpeg_args (m : Mapper) :
    ((m.input_file = none ∨ m.input_file = some "") →
      get_ffmpeg_args m = .error .exceptionInputFileNotSet) ∧
    (∀ f, m.input_file = some f → f ≠ "" →
      get_ffmpeg_args m =
        .ok (m.generic_options ++ ["-i", f] ++ m.main_options ++ m.advanced_options)) := by
  constructor
  · rintro (h | h) <;> simp [get_ffmpeg_args, h]
  · intro f hf hne
    simp [get_ffmpeg_args, hf, hne]

/-- C10 witness: a set input file assembles the argument list in order. -/
theorem extract_c10_witness :
    get_ffmpeg_args ⟨["-hide_banner"], ["-strict", "-2"], ["-map", "0:s:0"], some "in.mkv"⟩ =
      .ok ["-hide_banner", "-i", "in.mkv", "-strict", "-2", "-map", "0:s:0"] := by
  have h := (extract_c10_ffmpeg_args
      ⟨["-hide_banner"], ["-strict", "-2"], ["-map", "0:s:0"], some "in.mkv"⟩).2
      "in.mkv" rfl (by decide)
  simpa using h

/-- C8: with no language information, no default language, title fallback
enabled and a non-empty title, the tag is `.` followed by the
original-case title, whitespace then replaced by hyphens. -/
theorem extract_c8_title_fallback (bf : Babelfish) (settings : Settings)
    (tg : StreamTags) (idx sid : Nat) (cn : Option String) (t : String)
    (hdef : settings.default_language = "")
    (hfb : settings.use_title_failback = true)
    (hT : tg.title = some t) (ht : t ≠ "")
    (hL : tg.language.getD "" = "" ∨ pyLower (tg.language.getD "") = "und") :
    custom_stream_mapping bf settings ⟨tg, idx, cn⟩ sid =
      .ok ⟨sid, re_sub_ws ("." ++ t),
        ["-map", "0:s:" ++ toString sid], ["-c:s:" ++ toString sid, "copy"]⟩ := by
  have htt : pyTruthy (some t) = true := by
    simp [pyTruthy]
    exact ht
  have hcore : mapping_core bf settings tg "" (pyLower t) idx =
      .ok (re_sub_ws ("." ++ t)) := by
    have hpre : mapping_pre_tag bf settings tg "" (pyLower t) = .ok ("." ++ t) := by
      unfold mapping_pre_tag language_branch
      rw [show resolve_locale bf "" = none from rfl]
      simp only [ne_eq, not_true_eq_false, ite_false, if_false]
      unfold assemble_tag
      rw [hT]
      simp [hfb, pyLower_ne_empty ht, empty_append]
    unfold mapping_core
    rw [hpre]
    dsimp only
    simp only [finalize_tag]
    rw [if_neg (dot_append_ne_empty t)]
  by_cases hp : pyTruthy tg.language = true
  · have hund : pyLower (tg.language.getD "") = "und" := by
      rcases hL with hL | hL
      · exfalso
        simp [pyTruthy, hL] at hp
      · exact hL
    simp [custom_stream_mapping, hp, htt, hund, hT, hdef, hcore]
  · have hpf : pyTruthy tg.language = false := by
      simpa using hp
    simp [custom_stream_mapping, hpf, htt, hT, hdef, hcore]

/-- C8 witness: the spec's example — no language, empty default, title
`Director Commentary` — yields `.Director-Commentary`. -/
theorem extract_c8_witness :
    custom_stream_mapping bfTable { defaultSettings with default_language := "" }
        ⟨⟨none, some "Director Commentary"⟩, 3, some "subrip"⟩ 1 =
      .ok ⟨1, ".Director-Commentary", ["-map", "0:s:1"], ["-c:s:1", "copy"]⟩ := by
  have h := extract_c8_title_fallback bfTable
    { defaultSettings with default_language := "" }
    ⟨none, some "Director Commentary"⟩ 3 1 (some "subrip") "Director Commentary"
    rfl rfl rfl (by decide) (Or.inl rfl)
  rw [h]
  rfl

/-- C9 counterexample: language absent, `defaultLanguage="en"`, title
fallback enabled, non-empty title — the code substitutes the default as
the stream language, the title-fallback branch is never reached, and with
no regional keyword in the title the call raises `UnboundLocalError`
instead of producing a tag with a title segment followed by a
default-language segment. -/
theorem extract_c9_counterexample :
    (custom_stream_mapping bfTable defaultSettings
        ⟨⟨none, some "Director Commentary"⟩, 3, some "subrip"⟩ 0).isOk = false ∧
    custom_stream_mapping bfTable defaultSettings
        ⟨⟨none, some "Director Commentary"⟩, 3, some "subrip"⟩ 0 =
      .error .unboundLocalError :=
  ⟨rfl, rfl⟩

/-- C9 amended: with language absent (or `und`), title fallback enabled, a
non-empty title and the default configuration (default language `en`), the
default language is substituted as the stream language and resolved like a
real language tag, so the title-fallback branch is never taken; when the
title matches no English regional keyword, the mapping raises
`UnboundLocalError` instead of producing any tag. -/
theorem extract_c9_substitution_preempts_title (t : String) (idx sid : Nat)
    (cn lng : Option String)
    (hL : lng.getD "" = "" ∨ pyLower (lng.getD "") = "und")
    (ht : t ≠ "")
    (hR : detect_region_en (pyLower t) = none) :
    custom_stream_mapping bfTable defaultSettings ⟨⟨lng, some t⟩, idx, cn⟩ sid =
      .error .unboundLocalError := by
  have htt : pyTruthy (some t) = true := by
    simp [pyTruthy]
    exact ht
  have hpre : mapping_pre_tag bfTable defaultSettings ⟨lng, some t⟩ "en" (pyLower t) =
      .error .unboundLocalError := by
    unfold mapping_pre_tag
    rw [show language_branch bfTable defaultSettings "en" (pyLower t) =
      .ok ("en", detect_region_en (pyLower t)) from rfl]
    rw [hR]
    simp [assemble_tag]
  have hcore : mapping_core bfTable defaultSettings ⟨lng, some t⟩ "en" (pyLower t) idx =
      .error .unboundLocalError := by
    unfold mapping_core
    rw [hpre]
  by_cases hp : pyTruthy lng = true
  · have hund : pyLower (lng.getD "") = "und" := by
      rcases hL with hL | hL
      · exfalso
        simp [pyTruthy, hL] at hp
      · exact hL
    simp [custom_stream_mapping, hp, htt, hund,
      show defaultSettings.default_language = "en" from rfl, hcore]
  · have hpf : pyTruthy lng = false := by
      simpa using hp
    simp [custom_stream_mapping, hpf, htt,
      show defaultSettings.default_language = "en" from rfl, hcore]

/-- C9 amended witness: a keyword-free title with language absent and the
default configuration raises `UnboundLocalError`. -/
theorem extract_c9_witness :
    custom_stream_mapping bfTable defaultSettings
        ⟨⟨none, some "Commentary Track"⟩, 5, some "subrip"⟩ 2 =
      .error .unboundLocalError :=
  extract_c9_substitution_preempts_title "Commentary Track" 5 2 (some "subrip") none
    (Or.inl rfl) (by decide) (by decide)

end ExtractSrt
